import Mathlib

/-!
Shallow embedding of the `documentstack/sdk-node` client (src/src/client.ts,
src/src/errors.ts, src/src/types.ts).

Modelling conventions:
* JS numbers that can be `NaN` are modelled as `Option Int` (`none` = NaN).
* JS `undefined`/absent optional fields are `Option` `none`.
* JS `||` on strings: `""` is falsy; on numbers: `0` and `NaN` are falsy.
* The HTTP transport is an oracle (`FetchOutcome`) handed to `run`: either an
  HTTP response (status, status text, headers, raw body bytes, and the result
  of `response.json()` as `Option APIErrorResponse`, `none` meaning the body
  failed to parse as JSON), an abort (the timeout fired, surfacing as an
  `AbortError`), or a transport error carrying a message.
* The debug `console.log` side channel is modelled as a log list in the run
  result; the outbound request is modelled as a request list (empty when no
  fetch was issued).
-/

/-- JS `parseInt(s, 10)`: skip leading whitespace, optional sign, then the
longest digit prefix; `none` (NaN) when no digit follows. -/
def parseIntJS (s : String) : Option Int :=
  let cs := s.toList.dropWhile (fun c =>
    c = ' ' ∨ c = '\t' ∨ c = '\n' ∨ c = '\r' ∨ c = '\x0b' ∨ c = '\x0c')
  let digits (l : List Char) : Option Nat :=
    let ds := l.takeWhile (fun c => c.isDigit)
    if ds.isEmpty then none
    else some (ds.foldl (fun a c => a * 10 + (c.toNat - 48)) 0)
  match cs with
  | '-' :: rest => (digits rest).map (fun n => -(n : Int))
  | '+' :: rest => (digits rest).map (fun n => (n : Int))
  | _ => (digits cs).map (fun n => (n : Int))

/-- JS `a || b` for an optional string read (`null`/missing and `""` are
falsy). -/
def jsOrStr (a : Option String) (b : String) : String :=
  match a with
  | none => b
  | some s => if s = "" then b else s

/-- JS `a || b` where `a` is a number (possibly NaN, i.e. `none`) and `b` a
byte length: `0` and NaN are falsy. -/
def jsOrNum (a : Option Int) (b : Nat) : Int :=
  match a with
  | none => (b : Int)
  | some v => if v = 0 then (b : Int) else v

/-- ASCII lower-casing of one character (header names are byte-lowercased by
the Fetch `Headers` machinery). -/
def charLowerASCII (c : Char) : Char :=
  if 'A' ≤ c ∧ c ≤ 'Z' then Char.ofNat (c.toNat + 32) else c

/-- Case-insensitive equality of header names. -/
def headerNameEq (a b : String) : Bool :=
  a.toList.map charLowerASCII = b.toList.map charLowerASCII

/-- `Headers.get`: case-insensitive lookup of the first matching header. -/
def headersGet (hs : List (String × String)) (name : String) : Option String :=
  (hs.find? (fun p => headerNameEq p.1 name)).map (fun p => p.2)

/-- Case-sensitive lookup in a plain JS object modelled as an ordered
association list. -/
def objGet (m : List (String × String)) (k : String) : Option String :=
  (m.find? (fun p => p.1 = k)).map (fun p => p.2)

/-- Setting one key of a JS object: an existing key keeps its position and is
overwritten, a new key is appended. -/
def objInsert (m : List (String × String)) (k v : String) : List (String × String) :=
  if m.any (fun p => p.1 = k) then
    m.map (fun p => if p.1 = k then (k, v) else p)
  else
    m ++ [(k, v)]

/-- JS object spread `\x7b ...base, ...extra \x7d`: later keys win. -/
def objSpread (base extra : List (String × String)) : List (String × String) :=
  extra.foldl (fun m p => objInsert m p.1 p.2) base

/-- The last binding of key `k` in an association list, if any (the binding
that survives a JS object spread). -/
def objGetLast : List (String × String) → String → Option String
  | [], _ => none
  | p :: rest, k =>
    match objGetLast rest k with
    | some v => some v
    | none => if p.1 = k then some p.2 else none

/-- Hex digit value, as in URI escape sequences. -/
def hexVal (c : Char) : Option Nat :=
  if '0' ≤ c ∧ c ≤ '9' then some (c.toNat - 48)
  else if 'A' ≤ c ∧ c ≤ 'F' then some (c.toNat - 55)
  else if 'a' ≤ c ∧ c ≤ 'f' then some (c.toNat - 87)
  else none

/-- Byte of a two-hex-digit escape. -/
def hexByte (c1 c2 : Char) : Option Nat :=
  match hexVal c1, hexVal c2 with
  | some a, some b => some (a * 16 + b)
  | _, _ => none

/-- Tokens of a percent-encoded string: literal characters and decoded
`%XX` bytes. -/
inductive DecTok where
  | lit (c : Char)
  | byte (b : Nat)
deriving DecidableEq

/-- First phase of `decodeURIComponent`: each `%` must be followed by two hex
digits, otherwise a `URIError` (`none`). -/
def uriTokenize : List Char → Option (List DecTok)
  | [] => some []
  | '%' :: a :: b :: cs =>
    match hexByte a b with
    | some v => (uriTokenize cs).map (fun ts => DecTok.byte v :: ts)
    | none => none
  | '%' :: _ => none
  | c :: cs => (uriTokenize cs).map (fun ts => DecTok.lit c :: ts)

/-- A UTF-8 continuation byte. -/
def isCont (b : Nat) : Bool := 0x80 ≤ b ∧ b ≤ 0xBF

/-- Second phase of `decodeURIComponent`: decoded byte runs must form valid
UTF-8 scalar sequences (no overlong forms, no surrogates), otherwise a
`URIError` (`none`). -/
def decodeToks : List DecTok → Option (List Char)
  | [] => some []
  | DecTok.lit c :: ts => (decodeToks ts).map (fun l => c :: l)
  | DecTok.byte b :: ts =>
    if b < 0x80 then (decodeToks ts).map (fun l => Char.ofNat b :: l)
    else if 0xC2 ≤ b ∧ b ≤ 0xDF then
      match ts with
      | DecTok.byte b1 :: ts2 =>
        if isCont b1 then
          (decodeToks ts2).map (fun l => Char.ofNat ((b - 0xC0) * 64 + (b1 - 0x80)) :: l)
        else none
      | _ => none
    else if 0xE0 ≤ b ∧ b ≤ 0xEF then
      match ts with
      | DecTok.byte b1 :: DecTok.byte b2 :: ts2 =>
        let cp := (b - 0xE0) * 4096 + (b1 - 0x80) * 64 + (b2 - 0x80)
        if isCont b1 ∧ isCont b2 ∧ 0x800 ≤ cp ∧ (cp < 0xD800 ∨ 0xDFFF < cp) then
          (decodeToks ts2).map (fun l => Char.ofNat cp :: l)
        else none
      | _ => none
    else if 0xF0 ≤ b ∧ b ≤ 0xF4 then
      match ts with
      | DecTok.byte b1 :: DecTok.byte b2 :: DecTok.byte b3 :: ts2 =>
        let cp := (b - 0xF0) * 262144 + (b1 - 0x80) * 4096 + (b2 - 0x80) * 64 + (b3 - 0x80)
        if isCont b1 ∧ isCont b2 ∧ isCont b3 ∧ 0x10000 ≤ cp ∧ cp ≤ 0x10FFFF then
          (decodeToks ts2).map (fun l => Char.ofNat cp :: l)
        else none
      | _ => none
    else none

/-- JS `decodeURIComponent`; `none` models a thrown `URIError`. -/
def decodeURIComponentJS (s : String) : Option String :=
  match uriTokenize s.toList with
  | some ts => (decodeToks ts).map String.mk
  | none => none

/-- Characters left unescaped by JS `encodeURIComponent`. -/
def isUnreservedURI (c : Char) : Bool :=
  c.isAlpha ∨ c.isDigit ∨ c = '-' ∨ c = '_' ∨ c = '.' ∨ c = '!' ∨ c = '~' ∨
    c = '*' ∨ c = Char.ofNat 39 ∨ c = '(' ∨ c = ')'

/-- UTF-8 bytes of a scalar value. -/
def utf8Bytes (c : Char) : List Nat :=
  let n := c.toNat
  if n < 0x80 then [n]
  else if n < 0x800 then [0xC0 + n / 64, 0x80 + n % 64]
  else if n < 0x10000 then [0xE0 + n / 4096, 0x80 + n / 64 % 64, 0x80 + n % 64]
  else [0xF0 + n / 262144, 0x80 + n / 4096 % 64, 0x80 + n / 64 % 64, 0x80 + n % 64]

/-- Upper-case hex digit. -/
def hexDigit (n : Nat) : Char :=
  if n < 10 then Char.ofNat (48 + n) else Char.ofNat (55 + n)

/-- `%XX` escape of a byte. -/
def pctByte (b : Nat) : List Char :=
  ['%', hexDigit (b / 16), hexDigit (b % 16)]

/-- JS `encodeURIComponent`. -/
def encodeURIComponentJS (s : String) : String :=
  String.mk ((s.toList.map (fun c =>
    if isUnreservedURI c then [c] else ((utf8Bytes c).map pctByte).flatten)).flatten)

/-- `APIErrorResponse` (src/src/types.ts): the wire shape of a failure body.
`details` is carried opaquely. -/
structure APIErrorResponse where
  error : String
  message : String
  details : Option String
deriving DecidableEq

/-- Discriminant of the error taxonomy (the `name` of the thrown class). -/
inductive ErrorKind where
  | Validation
  | Authentication
  | Forbidden
  | NotFound
  | RateLimit
  | Server
  | Timeout
  | Network
deriving DecidableEq

/-- A thrown SDK error (src/src/errors.ts), flattened: `statusCode`,
`errorCode` and `details` exist only on `APIError` subclasses (`none`
otherwise); `retryAfter` only on `RateLimitError`; `cause` only on
`NetworkError` (the underlying error's message). -/
structure ClassifiedError where
  kind : ErrorKind
  statusCode : Option Nat
  errorCode : Option String
  message : String
  details : Option String
  retryAfter : Option Int
  cause : Option String
deriving DecidableEq

/-- `new APIError(statusCode, response)` as specialised by a subclass with
the given kind and constructor-fixed status code. -/
def mkAPIError (kind : ErrorKind) (statusCode : Nat) (r : APIErrorResponse) : ClassifiedError :=
  { kind := kind, statusCode := some statusCode, errorCode := some r.error,
    message := r.message, details := r.details, retryAfter := none, cause := none }

/-- `new ValidationError(response)`: `super(400, response)`. -/
def ValidationError (r : APIErrorResponse) : ClassifiedError :=
  mkAPIError ErrorKind.Validation 400 r

/-- `new AuthenticationError(response)`: `super(401, response)`. -/
def AuthenticationError (r : APIErrorResponse) : ClassifiedError :=
  mkAPIError ErrorKind.Authentication 401 r

/-- `new ForbiddenError(response)`: `super(403, response)`. -/
def ForbiddenError (r : APIErrorResponse) : ClassifiedError :=
  mkAPIError ErrorKind.Forbidden 403 r

/-- `new NotFoundError(response)`: `super(404, response)`. -/
def NotFoundError (r : APIErrorResponse) : ClassifiedError :=
  mkAPIError ErrorKind.NotFound 404 r

/-- `new RateLimitError(response, retryAfter)`: `super(429, response)`. -/
def RateLimitError (r : APIErrorResponse) (retryAfter : Option Int) : ClassifiedError :=
  { mkAPIError ErrorKind.RateLimit 429 r with retryAfter := retryAfter }

/-- `new TimeoutError(timeout)`: extends `DocumentStackError`, no status
code field. -/
def TimeoutError (timeout : Int) : ClassifiedError :=
  { kind := ErrorKind.Timeout, statusCode := none, errorCode := none,
    message := "Request timed out after " ++ toString timeout ++ "ms",
    details := none, retryAfter := none, cause := none }

/-- `new NetworkError(message, cause)`: extends `DocumentStackError`, no
status code field. -/
def NetworkError (msg : String) (cause : Option String) : ClassifiedError :=
  { kind := ErrorKind.Network, statusCode := none, errorCode := none,
    message := msg, details := none, retryAfter := none, cause := cause }

/-- `parseInt(headers.get("Retry-After") || "", 10) || undefined`
(client.ts lines 191-192). -/
def retryAfterOf (h : Option String) : Option Int :=
  match parseIntJS (jsOrStr h "") with
  | none => none
  | some v => if v = 0 then none else some v

/-- `new ServerError(response)`: `super(500, response)` — the constructor
hardcodes status 500; `createError` uses it for the 500 case and the default
fallback alike. -/
def ServerError (r : APIErrorResponse) : ClassifiedError :=
  mkAPIError ErrorKind.Server 500 r

/-- `DocumentStack.createError` (client.ts lines 176-199). -/
def createError (statusCode : Nat) (response : APIErrorResponse)
    (headers : List (String × String)) : ClassifiedError :=
  if statusCode = 400 then ValidationError response
  else if statusCode = 401 then AuthenticationError response
  else if statusCode = 403 then ForbiddenError response
  else if statusCode = 404 then NotFoundError response
  else if statusCode = 429 then
    RateLimitError response (retryAfterOf (headersGet headers "Retry-After"))
  else ServerError response

/-- Resolved client configuration (constructor of `DocumentStack`). -/
structure Config where
  apiKey : String
  baseUrl : String
  timeout : Int
  headers : List (String × String)
  debug : Bool
deriving DecidableEq

/-- `GenerateRequest`: the `data` and `options` payloads are carried as
opaque, already-serialised JSON fragments (their content is never inspected
by the client). -/
structure GenerateRequest where
  data : Option String
  options : Option String
deriving DecidableEq

/-- `JSON.stringify(\x7b data, options \x7d)`: `undefined` fields are
omitted. -/
def serializeBody (r : GenerateRequest) : String :=
  let fields :=
    (match r.data with
     | some d => ["\"data\":" ++ d]
     | none => []) ++
    (match r.options with
     | some o => ["\"options\":" ++ o]
     | none => [])
  "\x7b" ++ String.intercalate "," fields ++ "\x7d"

/-- A successful `GenerateResponse` (src/src/types.ts).
`generationTimeMs` is `Option Int` because `parseInt` can produce NaN
(`none`), which the source stores unguarded. -/
structure GenerateResponse where
  pdf : List Nat
  filename : String
  generationTimeMs : Option Int
  contentLength : Int
deriving DecidableEq

/-- Terminal result of one `generate` call: the resolved value or the thrown
error. -/
inductive GenerateOutcome where
  | success (r : GenerateResponse)
  | failure (e : ClassifiedError)
deriving DecidableEq

/-- The single outbound HTTP request of a `generate` call. -/
structure HttpRequest where
  url : String
  method : String
  headers : List (String × String)
  body : String
deriving DecidableEq

/-- Transport oracle: what `fetch` does for this call. `bodyJson` is the
result of `response.json()` (`none` = the body is not valid JSON). -/
inductive FetchOutcome where
  | response (status : Nat) (statusText : String) (headers : List (String × String))
      (body : List Nat) (bodyJson : Option APIErrorResponse)
  | abort
  | netError (msg : String)
deriving DecidableEq

/-- Result of one modelled `generate` call: outcome, issued requests, debug
log. -/
structure RunResult where
  outcome : GenerateOutcome
  requests : List HttpRequest
  log : List String
deriving DecidableEq

/-- The fixed headers spread first, then `config.headers` (client.ts lines
90-94: object spread, later keys win). -/
def builtHeaders (cfg : Config) : List (String × String) :=
  objSpread
    [("Content-Type", "application/json"),
     ("Authorization", "Bearer " ++ cfg.apiKey)]
    cfg.headers

/-- The outbound POST request of `generate` (client.ts lines 88-118). -/
def mkHttpRequest (cfg : Config) (templateId : String) (req : GenerateRequest) : HttpRequest :=
  { url := cfg.baseUrl ++ "/api/v1/generate/" ++ encodeURIComponentJS templateId,
    method := "POST",
    headers := builtHeaders cfg,
    body := serializeBody req }

/-- The character class `[^";\n]` of the filename regex. -/
def allowedFnameChar (c : Char) : Bool :=
  c ≠ '"' ∧ c ≠ ';' ∧ c ≠ '\n'

/-- Match of `filename="?([^";\n]+)"?` at one candidate position, `cs` being
the text right after the literal `filename=`: an optional opening quote, then
a non-empty greedy run of allowed characters (the capture). -/
def matchFilenameAt (cs : List Char) : Option String :=
  match cs with
  | '"' :: rest =>
    let r := rest.takeWhile allowedFnameChar
    if r.isEmpty then none else some (String.mk r)
  | _ =>
    let r := cs.takeWhile allowedFnameChar
    if r.isEmpty then none else some (String.mk r)

/-- `contentDisposition.match(/filename="?([^";\n]+)"?/)?.[1]`: first
position where the regex matches, scanning left to right. -/
def findFilename : List Char → Option String
  | [] => none
  | c :: rest =>
    if List.isPrefixOf ("filename=".toList) (c :: rest) then
      match matchFilenameAt (List.drop 8 rest) with
      | some s => some s
      | none => findFilename rest
    else findFilename rest

/-- Success-path decoding (client.ts lines 131-159): body bytes, header
metadata, filename extraction, percent-decoding (whose `URIError` is caught
by the generic handler and wrapped as `NetworkError`). -/
def decodeSuccess (hdrs : List (String × String)) (bodyBytes : List Nat) : GenerateOutcome :=
  let pdf := bodyBytes
  let contentDisposition := jsOrStr (headersGet hdrs "Content-Disposition") ""
  let generationTimeMs := parseIntJS (jsOrStr (headersGet hdrs "X-Generation-Time-Ms") "0")
  let contentLength := parseIntJS (jsOrStr (headersGet hdrs "Content-Length") "0")
  let filename := jsOrStr (findFilename contentDisposition.toList) "document.pdf"
  match decodeURIComponentJS filename with
  | some fn =>
    GenerateOutcome.success
      { pdf := pdf, filename := fn, generationTimeMs := generationTimeMs,
        contentLength := jsOrNum contentLength pdf.length }
  | none =>
    GenerateOutcome.failure
      (NetworkError "Network request failed: URI malformed" (some "URI malformed"))

/-- Debug record emitted before sending (client.ts lines 101-107), with the
Authorization value masked. -/
def requestLogEntry (cfg : Config) (templateId : String) (req : GenerateRequest) : String :=
  "[DocumentStack] Request: url=" ++ (mkHttpRequest cfg templateId req).url ++
    " headers=" ++ toString (objInsert (builtHeaders cfg) "Authorization" "Bearer ***") ++
    " body=" ++ serializeBody req

/-- Debug record emitted after a successful response (client.ts lines
146-152): raw filename (before percent-decoding), parsed generation time and
parsed content length (before the byte-length fallback). -/
def responseLogEntry (hdrs : List (String × String)) : String :=
  "[DocumentStack] Response: filename=" ++
    jsOrStr (findFilename (jsOrStr (headersGet hdrs "Content-Disposition") "").toList) "document.pdf" ++
    " generationTimeMs=" ++ toString (parseIntJS (jsOrStr (headersGet hdrs "X-Generation-Time-Ms") "0")) ++
    " contentLength=" ++ toString (parseIntJS (jsOrStr (headersGet hdrs "Content-Length") "0"))

/-- One call of `DocumentStack.generate` (client.ts lines 77-174), with the
transport's behaviour supplied as an oracle. -/
def run (cfg : Config) (templateId : String) (req : GenerateRequest)
    (fetchR : FetchOutcome) : RunResult :=
  if templateId = "" then
    { outcome := GenerateOutcome.failure
        (ValidationError { error := "Bad Request", message := "Template ID is required", details := none }),
      requests := [], log := [] }
  else
    let httpReq := mkHttpRequest cfg templateId req
    let reqLog := if cfg.debug then [requestLogEntry cfg templateId req] else []
    match fetchR with
    | FetchOutcome.abort =>
      { outcome := GenerateOutcome.failure (TimeoutError cfg.timeout),
        requests := [httpReq], log := reqLog }
    | FetchOutcome.netError msg =>
      { outcome := GenerateOutcome.failure
          (NetworkError ("Network request failed: " ++ msg) (some msg)),
        requests := [httpReq], log := reqLog }
    | FetchOutcome.response status statusText hdrs bodyBytes bodyJson =>
      if 200 ≤ status ∧ status ≤ 299 then
        let respLog := if cfg.debug then [responseLogEntry hdrs] else []
        { outcome := decodeSuccess hdrs bodyBytes,
          requests := [httpReq], log := reqLog ++ respLog }
      else
        { outcome := GenerateOutcome.failure
            (createError status
              (bodyJson.getD { error := "Unknown Error", message := statusText, details := none })
              hdrs),
          requests := [httpReq], log := reqLog }

/-- Status-code field of the thrown error, `none` when the call succeeded. -/
def outcomeErrorStatus : GenerateOutcome → Option (Option Nat)
  | GenerateOutcome.failure e => some e.statusCode
  | GenerateOutcome.success _ => none

/-- A sample resolved configuration. -/
def cfg0 : Config :=
  { apiKey := "k", baseUrl := "https://api.documentstack.dev",
    timeout := 30000, headers := [], debug := false }

/-- A sample empty request. -/
def req0 : GenerateRequest := { data := none, options := none }

/-! ### Helper lemmas -/

theorem parseIntJS_zero_str : parseIntJS "0" = some 0 := by decide

theorem parseIntJS_empty_str : parseIntJS "" = none := by decide

theorem decode_document_pdf : decodeURIComponentJS "document.pdf" = some "document.pdf" := by
  decide

theorem run_outcome_non2xx (cfg : Config) (tid : String) (req : GenerateRequest)
    (st : Nat) (stText : String) (hdrs : List (String × String)) (body : List Nat)
    (bj : Option APIErrorResponse) (h1 : tid ≠ "") (h2 : ¬(200 ≤ st ∧ st ≤ 299)) :
    (run cfg tid req (FetchOutcome.response st stText hdrs body bj)).outcome =
      GenerateOutcome.failure
        (createError st
          (bj.getD { error := "Unknown Error", message := stText, details := none }) hdrs) := by
  simp [run, h1, h2]

theorem run_outcome_2xx (cfg : Config) (tid : String) (req : GenerateRequest)
    (st : Nat) (stText : String) (hdrs : List (String × String)) (body : List Nat)
    (bj : Option APIErrorResponse) (h1 : tid ≠ "") (h2 : 200 ≤ st ∧ st ≤ 299) :
    (run cfg tid req (FetchOutcome.response st stText hdrs body bj)).outcome =
      decodeSuccess hdrs body := by
  simp [run, h1, h2]

theorem run_requests_nonempty (cfg : Config) (tid : String) (req : GenerateRequest)
    (fetchR : FetchOutcome) (h1 : tid ≠ "") :
    (run cfg tid req fetchR).requests = [mkHttpRequest cfg tid req] := by
  cases fetchR with
  | abort => simp [run, h1]
  | netError m => simp [run, h1]
  | response st stText hdrs body bj =>
    by_cases h2 : 200 ≤ st ∧ st ≤ 299 <;> simp [run, h1, h2]

theorem createError_statusCode (st : Nat) (eb : APIErrorResponse)
    (hdrs : List (String × String)) :
    (createError st eb hdrs).statusCode =
      some (if st = 400 ∨ st = 401 ∨ st = 403 ∨ st = 404 ∨ st = 429 then st else 500) := by
  unfold createError
  split_ifs with h1 h2 h3 h4 h5 <;>
    simp_all [ValidationError, AuthenticationError, ForbiddenError, NotFoundError,
      RateLimitError, ServerError, mkAPIError]

theorem createError_kind_server (st : Nat) (eb : APIErrorResponse)
    (hdrs : List (String × String))
    (h : ¬(st = 400 ∨ st = 401 ∨ st = 403 ∨ st = 404 ∨ st = 429)) :
    (createError st eb hdrs).kind = ErrorKind.Server := by
  push_neg at h
  obtain ⟨h1, h2, h3, h4, h5⟩ := h
  simp [createError, h1, h2, h3, h4, h5, ServerError, mkAPIError]

theorem createError_errorCode (st : Nat) (eb : APIErrorResponse)
    (hdrs : List (String × String)) :
    (createError st eb hdrs).errorCode = some eb.error := by
  unfold createError
  split_ifs <;>
    simp [ValidationError, AuthenticationError, ForbiddenError, NotFoundError,
      RateLimitError, ServerError, mkAPIError]

theorem createError_message (st : Nat) (eb : APIErrorResponse)
    (hdrs : List (String × String)) :
    (createError st eb hdrs).message = eb.message := by
  unfold createError
  split_ifs <;>
    simp [ValidationError, AuthenticationError, ForbiddenError, NotFoundError,
      RateLimitError, ServerError, mkAPIError]

theorem createError_not_transport (st : Nat) (eb : APIErrorResponse)
    (hdrs : List (String × String)) :
    (createError st eb hdrs).kind ≠ ErrorKind.Timeout ∧
      (createError st eb hdrs).kind ≠ ErrorKind.Network := by
  unfold createError
  split_ifs <;>
    simp [ValidationError, AuthenticationError, ForbiddenError, NotFoundError,
      RateLimitError, ServerError, mkAPIError]

theorem decodeSuccess_success_fields (hdrs : List (String × String)) (body : List Nat)
    (r : GenerateResponse) (h : decodeSuccess hdrs body = GenerateOutcome.success r) :
    r.pdf = body ∧
    r.generationTimeMs = parseIntJS (jsOrStr (headersGet hdrs "X-Generation-Time-Ms") "0") ∧
    r.contentLength =
      jsOrNum (parseIntJS (jsOrStr (headersGet hdrs "Content-Length") "0")) body.length := by
  simp only [decodeSuccess] at h
  split at h
  · injection h with h
    subst h
    exact ⟨rfl, rfl, rfl⟩
  · exact absurd h (by simp)

theorem objGet_map_set (m : List (String × String)) (k v : String)
    (h : m.any (fun p => p.1 = k) = true) :
    objGet (m.map (fun p => if p.1 = k then (k, v) else p)) k = some v := by
  induction m with
  | nil => simp at h
  | cons p rest ih =>
    by_cases hp : p.1 = k
    · simp [objGet, List.find?, hp]
    · have h' : rest.any (fun p => p.1 = k) = true := by simpa [hp] using h
      simpa [objGet, List.find?, hp] using ih h'

theorem objGet_append_single (m : List (String × String)) (k v : String)
    (h : m.any (fun p => p.1 = k) = false) :
    objGet (m ++ [(k, v)]) k = some v := by
  induction m with
  | nil => simp [objGet, List.find?]
  | cons p rest ih =>
    have hp : (p.1 = k) = False := by
      by_contra hc
      simp [List.any_cons] at h hc
      exact h.1 hc
    have h' : rest.any (fun p => p.1 = k) = false := by
      simp [List.any_cons] at h
      simpa using h.2
    simpa [objGet, List.find?, hp] using ih h'

theorem objGet_objInsert_self (m : List (String × String)) (k v : String) :
    objGet (objInsert m k v) k = some v := by
  unfold objInsert
  split
  · exact objGet_map_set m k v (by assumption)
  · rename_i h
    exact objGet_append_single m k v (Bool.eq_false_iff.mpr h)

theorem objGet_map_set_ne (m : List (String × String)) (k q v : String) (h : q ≠ k) :
    objGet (m.map (fun p => if p.1 = q then (q, v) else p)) k = objGet m k := by
  induction m with
  | nil => rfl
  | cons p rest ih =>
    by_cases hp : p.1 = q
    · have hhead : (if p.1 = q then (q, v) else p) = (q, v) := if_pos hp
      have hk : ¬p.1 = k := by rw [hp]; exact h
      simp only [List.map_cons, hhead]
      simpa [objGet, List.find?, h, hk] using ih
    · have hhead : (if p.1 = q then (q, v) else p) = p := if_neg hp
      simp only [List.map_cons, hhead]
      by_cases hk : p.1 = k
      · simp [objGet, List.find?, hk]
      · simpa [objGet, List.find?, hk] using ih

theorem objGet_append_single_ne (m : List (String × String)) (k q v : String) (h : q ≠ k) :
    objGet (m ++ [(q, v)]) k = objGet m k := by
  induction m with
  | nil => simp [objGet, List.find?, h]
  | cons p rest ih =>
    by_cases hk : p.1 = k
    · simp [objGet, List.find?, hk]
    · simpa [objGet, List.find?, hk] using ih

theorem objGet_objInsert_ne (m : List (String × String)) (k q v : String) (h : q ≠ k) :
    objGet (objInsert m q v) k = objGet m k := by
  unfold objInsert
  split
  · exact objGet_map_set_ne m k q v h
  · exact objGet_append_single_ne m k q v h

theorem objGet_objSpread_none (extra : List (String × String)) (k : String) :
    ∀ base, objGetLast extra k = none → objGet (objSpread base extra) k = objGet base k := by
  induction extra with
  | nil => intro base _; rfl
  | cons p rest ih =>
    intro base h
    cases hr : objGetLast rest k with
    | some w => simp [objGetLast, hr] at h
    | none =>
      by_cases hp : p.1 = k
      · simp [objGetLast, hr, hp] at h
      · have step : objSpread base (p :: rest) = objSpread (objInsert base p.1 p.2) rest := rfl
        rw [step, ih (objInsert base p.1 p.2) hr, objGet_objInsert_ne base k p.1 p.2 hp]

theorem objGet_objSpread_last (extra : List (String × String)) (k v : String) :
    ∀ base, objGetLast extra k = some v → objGet (objSpread base extra) k = some v := by
  induction extra with
  | nil => intro base h; simp [objGetLast] at h
  | cons p rest ih =>
    intro base h
    cases hr : objGetLast rest k with
    | some w =>
      have hw : w = v := by simpa [objGetLast, hr] using h
      exact ih (objInsert base p.1 p.2) (hw ▸ hr)
    | none =>
      by_cases hp : p.1 = k
      · have hv : p.2 = v := by simpa [objGetLast, hr, hp] using h
        have step : objSpread base (p :: rest) = objSpread (objInsert base p.1 p.2) rest := rfl
        rw [step, objGet_objSpread_none rest k (objInsert base p.1 p.2) hr, hp,
          objGet_objInsert_self base k p.2, hv]
      · simp [objGetLast, hr, hp] at h

/-! ### Claim theorems -/

/-- C1, counterexample: a 418 response (no explicit mapping) is classified
Server, but the raised error carries status code 500 — the `ServerError`
constructor's hardcoded value — not the original 418. -/
theorem c1_counterexample :
    outcomeErrorStatus (run cfg0 "t" req0 (FetchOutcome.response 418 "teapot" [] [] none)).outcome
        = some (some 500) ∧
    outcomeErrorStatus (run cfg0 "t" req0 (FetchOutcome.response 418 "teapot" [] [] none)).outcome
        ≠ some (some 418) := by
  decide

/-- C1, amended: for the explicitly mapped statuses 400/401/403/404/429 the
classified error carries the original status code; every other non-2xx
status is classified Server and carries status code 500 (the constructor's
hardcoded value), not the original status. -/
theorem c1_amended (cfg : Config) (tid : String) (req : GenerateRequest) (st : Nat)
    (stText : String) (hdrs : List (String × String)) (body : List Nat)
    (bj : Option APIErrorResponse) (h1 : tid ≠ "") (h2 : ¬(200 ≤ st ∧ st ≤ 299)) :
    ∃ e : ClassifiedError,
      (run cfg tid req (FetchOutcome.response st stText hdrs body bj)).outcome
          = GenerateOutcome.failure e ∧
      e.statusCode
          = some (if st = 400 ∨ st = 401 ∨ st = 403 ∨ st = 404 ∨ st = 429 then st else 500) ∧
      (¬(st = 400 ∨ st = 401 ∨ st = 403 ∨ st = 404 ∨ st = 429) → e.kind = ErrorKind.Server) := by
  refine ⟨_, run_outcome_non2xx cfg tid req st stText hdrs body bj h1 h2,
    createError_statusCode st _ hdrs, ?_⟩
  intro h
  exact createError_kind_server st _ hdrs h

/-- Witness for the amended C1 at status 418. -/
theorem c1_amended_witness :
    ("t" : String) ≠ "" ∧ ¬(200 ≤ 418 ∧ 418 ≤ 299) ∧
    ∃ e : ClassifiedError,
      (run cfg0 "t" req0 (FetchOutcome.response 418 "teapot" [] [] none)).outcome
          = GenerateOutcome.failure e ∧
      e.statusCode
          = some (if (418 : Nat) = 400 ∨ (418 : Nat) = 401 ∨ (418 : Nat) = 403 ∨
                    (418 : Nat) = 404 ∨ (418 : Nat) = 429 then 418 else 500) ∧
      (¬((418 : Nat) = 400 ∨ (418 : Nat) = 401 ∨ (418 : Nat) = 403 ∨
          (418 : Nat) = 404 ∨ (418 : Nat) = 429) → e.kind = ErrorKind.Server) :=
  ⟨by decide, by decide,
    c1_amended cfg0 "t" req0 418 "teapot" [] [] none (by decide) (by decide)⟩

/-- C2, counterexample: a caller-supplied `Content-Type` extra header
overrides the fixed one — the request carries `text/plain`, not the fixed
`application/json`. -/
theorem c2_counterexample :
    (run { cfg0 with headers := [("Content-Type", "text/plain")] } "t" req0
        (FetchOutcome.response 200 "OK" [] [] none)).requests.map
        (fun r => objGet r.headers "Content-Type") = [some "text/plain"] ∧
    (some "text/plain" : Option String) ≠ some "application/json" := by
  decide

/-- C2, amended: when a caller-supplied extra header key collides with a
fixed request header, the caller-supplied value (its last binding) is the
one sent — object-spread, last wins. -/
theorem c2_amended (cfg : Config) (tid : String) (req : GenerateRequest)
    (fetchR : FetchOutcome) (k v : String) (h1 : tid ≠ "")
    (hk : objGetLast cfg.headers k = some v) :
    ∀ r ∈ (run cfg tid req fetchR).requests, objGet r.headers k = some v := by
  intro r hr
  rw [run_requests_nonempty cfg tid req fetchR h1] at hr
  simp only [List.mem_singleton] at hr
  subst hr
  exact objGet_objSpread_last cfg.headers k v _ hk

/-- Witness for the amended C2 with a colliding `Content-Type` header. -/
theorem c2_amended_witness :
    ("t" : String) ≠ "" ∧
    objGetLast [("Content-Type", "text/plain")] "Content-Type" = some "text/plain" ∧
    ∀ r ∈ (run { cfg0 with headers := [("Content-Type", "text/plain")] } "t" req0
        (FetchOutcome.response 200 "OK" [] [] none)).requests,
      objGet r.headers "Content-Type" = some "text/plain" :=
  ⟨by decide, by decide,
    c2_amended { cfg0 with headers := [("Content-Type", "text/plain")] } "t" req0
      (FetchOutcome.response 200 "OK" [] [] none) "Content-Type" "text/plain"
      (by decide) (by decide)⟩

/-- C3, counterexample: on a 2xx response whose `X-Generation-Time-Ms`
header is present but not parsable ("abc"), the returned
`generationTimeMs` is NaN (`none` in this model), not 0. -/
theorem c3_counterexample :
    (run cfg0 "t" req0
        (FetchOutcome.response 200 "OK" [("X-Generation-Time-Ms", "abc")] [] none)).outcome
      = GenerateOutcome.success
          { pdf := [], filename := "document.pdf", generationTimeMs := none, contentLength := 0 } ∧
    (none : Option Int) ≠ some 0 := by
  decide

/-- C3, amended: on a 2xx success, `generationDurationMs` equals the JS
integer parse of the `X-Generation-Time-Ms` header when it is present and
non-empty — which is NaN (`none`), not 0, when it does not parse — and
equals 0 when the header is missing or empty. -/
theorem c3_amended (cfg : Config) (tid : String) (req : GenerateRequest) (st : Nat)
    (stText : String) (hdrs : List (String × String)) (body : List Nat)
    (bj : Option APIErrorResponse) (r : GenerateResponse)
    (h1 : tid ≠ "") (h2 : 200 ≤ st ∧ st ≤ 299)
    (hr : (run cfg tid req (FetchOutcome.response st stText hdrs body bj)).outcome
        = GenerateOutcome.success r) :
    r.generationTimeMs =
      match headersGet hdrs "X-Generation-Time-Ms" with
      | none => some 0
      | some s => if s = "" then some 0 else parseIntJS s := by
  rw [run_outcome_2xx cfg tid req st stText hdrs body bj h1 h2] at hr
  obtain ⟨-, hg, -⟩ := decodeSuccess_success_fields hdrs body r hr
  rw [hg]
  cases h : headersGet hdrs "X-Generation-Time-Ms" with
  | none => simp [jsOrStr, parseIntJS_zero_str]
  | some s =>
    by_cases hs : s = "" <;> simp [jsOrStr, hs, parseIntJS_zero_str]

/-- Witness for the amended C3 at a parsable header value. -/
theorem c3_amended_witness :
    ("t" : String) ≠ "" ∧ (200 ≤ 200 ∧ 200 ≤ 299) ∧
    (run cfg0 "t" req0
        (FetchOutcome.response 200 "OK" [("X-Generation-Time-Ms", "42")] [] none)).outcome
      = GenerateOutcome.success
          { pdf := [], filename := "document.pdf", generationTimeMs := some 42, contentLength := 0 } ∧
    ({ pdf := [], filename := "document.pdf", generationTimeMs := some 42,
        contentLength := 0 } : GenerateResponse).generationTimeMs =
      match headersGet [("X-Generation-Time-Ms", "42")] "X-Generation-Time-Ms" with
      | none => some 0
      | some s => if s = "" then some 0 else parseIntJS s :=
  ⟨by decide, by decide, by decide,
    c3_amended cfg0 "t" req0 200 "OK" [("X-Generation-Time-Ms", "42")] [] none
      { pdf := [], filename := "document.pdf", generationTimeMs := some 42, contentLength := 0 }
      (by decide) (by decide) (by decide)⟩

/-- C4, counterexample: a 429 response with `Retry-After: 0` — present and
parsable, with value 0 — yields `retryAfterSeconds` absent (`undefined`),
because `parseInt(...) || undefined` treats 0 as falsy; the claim requires
it to equal 0. -/
theorem c4_counterexample :
    parseIntJS "0" = some 0 ∧
    (run cfg0 "t" req0
        (FetchOutcome.response 429 "Too Many Requests" [("Retry-After", "0")] []
          (some { error := "rate_limited", message := "slow down", details := none }))).outcome
      = GenerateOutcome.failure
          (RateLimitError { error := "rate_limited", message := "slow down", details := none } none) ∧
    (RateLimitError { error := "rate_limited", message := "slow down", details := none }
        none).retryAfter ≠ some 0 := by
  refine ⟨by decide, by decide, by decide⟩

/-- C4, amended: for every 429 response the raised RateLimit error's
`retryAfterSeconds` equals the integer parse of `Retry-After` whenever that
parse is a nonzero integer, and is absent when the header is missing,
unparsable, or parses to 0. -/
theorem c4_amended (cfg : Config) (tid : String) (req : GenerateRequest)
    (stText : String) (hdrs : List (String × String)) (body : List Nat)
    (bj : Option APIErrorResponse) (h1 : tid ≠ "") :
    ∃ e : ClassifiedError,
      (run cfg tid req (FetchOutcome.response 429 stText hdrs body bj)).outcome
          = GenerateOutcome.failure e ∧
      e.kind = ErrorKind.RateLimit ∧
      e.retryAfter =
        (match headersGet hdrs "Retry-After" with
         | none => none
         | some s =>
           match parseIntJS s with
           | none => none
           | some w => if w = 0 then none else some w) := by
  refine ⟨_, run_outcome_non2xx cfg tid req 429 stText hdrs body bj h1 (by decide), ?_, ?_⟩
  · norm_num [createError, RateLimitError, mkAPIError]
  · norm_num [createError, RateLimitError, mkAPIError, retryAfterOf]
    cases h : headersGet hdrs "Retry-After" with
    | none => simp [jsOrStr, parseIntJS_empty_str]
    | some s =>
      by_cases hs : s = ""
      · simp [jsOrStr, hs, parseIntJS_empty_str]
      · simp [jsOrStr, hs]

/-- Witness for the amended C4 at `Retry-After: 30`. -/
theorem c4_amended_witness :
    ("t" : String) ≠ "" ∧
    ∃ e : ClassifiedError,
      (run cfg0 "t" req0
          (FetchOutcome.response 429 "Too Many Requests" [("Retry-After", "30")] []
            (some { error := "rate_limited", message := "slow down", details := none }))).outcome
          = GenerateOutcome.failure e ∧
      e.kind = ErrorKind.RateLimit ∧
      e.retryAfter =
        (match headersGet [("Retry-After", "30")] "Retry-After" with
         | none => none
         | some s =>
           match parseIntJS s with
           | none => none
           | some w => if w = 0 then none else some w) :=
  ⟨by decide,
    c4_amended cfg0 "t" req0 "Too Many Requests" [("Retry-After", "30")] []
      (some { error := "rate_limited", message := "slow down", details := none }) (by decide)⟩

/-- C5, counterexample: the Timeout error raised when the request aborts
carries no status code at all — the `statusCode` field does not exist on
`TimeoutError` (it is `undefined`, modelled `none`), not 0. -/
theorem c5_counterexample :
    (run cfg0 "t" req0 FetchOutcome.abort).outcome
      = GenerateOutcome.failure (TimeoutError 30000) ∧
    (TimeoutError 30000).statusCode = none ∧
    (TimeoutError 30000).statusCode ≠ some 0 := by
  decide

/-- C5, amended: Timeout- and Network-kind errors raised by `generate`
carry no status code field (`undefined`), while every HTTP-derived error
kind carries some (constructor-fixed) status code. -/
theorem c5_amended (cfg : Config) (tid : String) (req : GenerateRequest)
    (fetchR : FetchOutcome) (e : ClassifiedError)
    (he : (run cfg tid req fetchR).outcome = GenerateOutcome.failure e) :
    ((e.kind = ErrorKind.Timeout ∨ e.kind = ErrorKind.Network) → e.statusCode = none) ∧
    ((e.kind ≠ ErrorKind.Timeout ∧ e.kind ≠ ErrorKind.Network) →
      ∃ n : Nat, e.statusCode = some n) := by
  by_cases h1 : tid = ""
  · subst h1
    simp only [run] at he
    rw [if_pos trivial] at he
    injection he with he
    subst he
    exact ⟨by simp [ValidationError, mkAPIError], fun _ => ⟨400, rfl⟩⟩
  · cases fetchR with
    | abort =>
      simp only [run, if_neg h1] at he
      injection he with he
      subst he
      exact ⟨fun _ => rfl, by simp [TimeoutError]⟩
    | netError m =>
      simp only [run, if_neg h1] at he
      injection he with he
      subst he
      exact ⟨fun _ => rfl, by simp [NetworkError]⟩
    | response st stText hdrs body bj =>
      by_cases h2 : 200 ≤ st ∧ st ≤ 299
      · rw [run_outcome_2xx cfg tid req st stText hdrs body bj h1 h2] at he
        simp only [decodeSuccess] at he
        split at he
        · exact absurd he (by simp)
        · injection he with he
          subst he
          exact ⟨fun _ => rfl, by simp [NetworkError]⟩
      · rw [run_outcome_non2xx cfg tid req st stText hdrs body bj h1 h2] at he
        injection he with he
        subst he
        constructor
        · intro hk
          rcases hk with hk | hk
          · exact absurd hk (createError_not_transport st _ hdrs).1
          · exact absurd hk (createError_not_transport st _ hdrs).2
        · intro _
          exact ⟨_, createError_statusCode st _ hdrs⟩

/-- Witness for the amended C5 at a timed-out call. -/
theorem c5_amended_witness :
    (run cfg0 "t" req0 FetchOutcome.abort).outcome
        = GenerateOutcome.failure (TimeoutError 30000) ∧
    ((((TimeoutError 30000).kind = ErrorKind.Timeout ∨
        (TimeoutError 30000).kind = ErrorKind.Network) →
          (TimeoutError 30000).statusCode = none) ∧
      (((TimeoutError 30000).kind ≠ ErrorKind.Timeout ∧
        (TimeoutError 30000).kind ≠ ErrorKind.Network) →
          ∃ n : Nat, (TimeoutError 30000).statusCode = some n)) :=
  ⟨by decide, c5_amended cfg0 "t" req0 FetchOutcome.abort (TimeoutError 30000) (by decide)⟩

/-- C6, confirmed: on a 2xx response with `Content-Disposition:
attachment; filename="x.pdf"`, `X-Generation-Time-Ms: 42` and
`Content-Length: 100`, `generate` returns filename "x.pdf",
generationDurationMs 42, byteLength 100 and the raw body bytes; a missing
or unmatched `Content-Disposition` yields filename "document.pdf"; a
missing, unparsable or zero `Content-Length` yields the actual body byte
length. -/
theorem c6_success_decoding (cfg : Config) (tid : String) (req : GenerateRequest)
    (body : List Nat) (st : Nat) (stText : String) (bj : Option APIErrorResponse)
    (h1 : tid ≠ "") (h2 : 200 ≤ st ∧ st ≤ 299) :
    ((run cfg tid req (FetchOutcome.response st stText
        [("Content-Disposition", "attachment; filename=\"x.pdf\""),
         ("X-Generation-Time-Ms", "42"),
         ("Content-Length", "100")] body bj)).outcome
      = GenerateOutcome.success
          { pdf := body, filename := "x.pdf", generationTimeMs := some 42, contentLength := 100 }) ∧
    (∀ hdrs : List (String × String),
      (headersGet hdrs "Content-Disposition" = none ∨
        findFilename (jsOrStr (headersGet hdrs "Content-Disposition") "").toList = none) →
      ∃ r : GenerateResponse,
        (run cfg tid req (FetchOutcome.response st stText hdrs body bj)).outcome
            = GenerateOutcome.success r ∧ r.filename = "document.pdf") ∧
    (∀ (hdrs : List (String × String)) (r : GenerateResponse),
      (run cfg tid req (FetchOutcome.response st stText hdrs body bj)).outcome
          = GenerateOutcome.success r →
      (∀ s, headersGet hdrs "Content-Length" = some s →
        parseIntJS s = none ∨ parseIntJS s = some 0) →
      r.contentLength = (body.length : Int)) := by
  refine ⟨?_, ?_, ?_⟩
  · rw [run_outcome_2xx cfg tid req st stText _ body bj h1 h2]
    rfl
  · intro hdrs hcd
    have hff : findFilename (jsOrStr (headersGet hdrs "Content-Disposition") "").toList = none := by
      rcases hcd with h | h
      · rw [h]; decide
      · exact h
    refine ⟨{ pdf := body, filename := "document.pdf",
              generationTimeMs := parseIntJS (jsOrStr (headersGet hdrs "X-Generation-Time-Ms") "0"),
              contentLength :=
                jsOrNum (parseIntJS (jsOrStr (headersGet hdrs "Content-Length") "0"))
                  body.length }, ?_, rfl⟩
    rw [run_outcome_2xx cfg tid req st stText hdrs body bj h1 h2]
    simp only [decodeSuccess, hff]
    simp [jsOrStr, decode_document_pdf]
  · intro hdrs r hr hcl
    rw [run_outcome_2xx cfg tid req st stText hdrs body bj h1 h2] at hr
    obtain ⟨-, -, hc⟩ := decodeSuccess_success_fields hdrs body r hr
    rw [hc]
    cases h : headersGet hdrs "Content-Length" with
    | none => simp [jsOrStr, jsOrNum, parseIntJS_zero_str]
    | some s =>
      have hps := hcl s h
      by_cases hs : s = ""
      · simp [jsOrStr, hs, jsOrNum, parseIntJS_zero_str]
      · rcases hps with h0 | h0 <;> simp [jsOrStr, hs, jsOrNum, h0]

/-- Witness for C6 at a concrete 200 response. -/
theorem c6_success_decoding_witness :
    (("t" : String) ≠ "" ∧ (200 ≤ 200 ∧ 200 ≤ 299)) ∧
    (run cfg0 "t" req0 (FetchOutcome.response 200 "OK"
        [("Content-Disposition", "attachment; filename=\"x.pdf\""),
         ("X-Generation-Time-Ms", "42"),
         ("Content-Length", "100")] [1, 2, 3] none)).outcome
      = GenerateOutcome.success
          { pdf := [1, 2, 3], filename := "x.pdf", generationTimeMs := some 42,
            contentLength := 100 } :=
  ⟨⟨by decide, by decide⟩,
    (c6_success_decoding cfg0 "t" req0 [1, 2, 3] 200 "OK" none (by decide) (by decide)).1⟩

/-- C7, confirmed: on a non-2xx response whose body fails to parse as JSON,
`generate` raises the status-classified error with errorCode
"Unknown Error" and message equal to the HTTP status text (Validation for
400); the malformed body never causes a secondary failure. -/
theorem c7_unparsable_error_body (cfg : Config) (tid : String) (req : GenerateRequest)
    (st : Nat) (stText : String) (hdrs : List (String × String)) (body : List Nat)
    (h1 : tid ≠ "") (h2 : ¬(200 ≤ st ∧ st ≤ 299)) :
    ∃ e : ClassifiedError,
      (run cfg tid req (FetchOutcome.response st stText hdrs body none)).outcome
          = GenerateOutcome.failure e ∧
      e.errorCode = some "Unknown Error" ∧
      e.message = stText ∧
      (st = 400 → e.kind = ErrorKind.Validation) := by
  refine ⟨_, run_outcome_non2xx cfg tid req st stText hdrs body none h1 h2, ?_, ?_, ?_⟩
  · exact createError_errorCode st _ hdrs
  · exact createError_message st _ hdrs
  · intro h
    subst h
    simp [createError, ValidationError, mkAPIError]

/-- Witness for C7 at a 400 response with a non-JSON body. -/
theorem c7_unparsable_error_body_witness :
    (("t" : String) ≠ "" ∧ ¬(200 ≤ 400 ∧ 400 ≤ 299)) ∧
    ∃ e : ClassifiedError,
      (run cfg0 "t" req0 (FetchOutcome.response 400 "Bad Request" [] [] none)).outcome
          = GenerateOutcome.failure e ∧
      e.errorCode = some "Unknown Error" ∧
      e.message = "Bad Request" ∧
      ((400 : Nat) = 400 → e.kind = ErrorKind.Validation) :=
  ⟨⟨by decide, by decide⟩,
    c7_unparsable_error_body cfg0 "t" req0 400 "Bad Request" [] [] (by decide) (by decide)⟩

/-- C8, confirmed: a `generate` call with an empty templateId fails with the
Validation-classified error (status 400, "Template ID is required") and
issues no outbound HTTP request, whatever the transport would have done. -/
theorem c8_empty_templateId (cfg : Config) (req : GenerateRequest) (fetchR : FetchOutcome) :
    run cfg "" req fetchR =
      { outcome := GenerateOutcome.failure
          (ValidationError
            { error := "Bad Request", message := "Template ID is required", details := none }),
        requests := [], log := [] } ∧
    (ValidationError
      { error := "Bad Request", message := "Template ID is required", details := none }).kind
        = ErrorKind.Validation := by
  exact ⟨by simp [run], rfl⟩

/-- C9, confirmed: the debug flag never alters the outcome or the request
sent — two runs identical except for `debug` produce the same outcome and
the same outbound requests (only the diagnostic log differs). -/
theorem c9_debug_noninterference (cfg : Config) (b : Bool) (tid : String)
    (req : GenerateRequest) (fetchR : FetchOutcome) :
    (run { cfg with debug := b } tid req fetchR).outcome
        = (run cfg tid req fetchR).outcome ∧
    (run { cfg with debug := b } tid req fetchR).requests
        = (run cfg tid req fetchR).requests := by
  by_cases h1 : tid = ""
  · subst h1
    simp [run]
  · cases fetchR with
    | abort => simp [run, h1, mkHttpRequest, builtHeaders]
    | netError m => simp [run, h1, mkHttpRequest, builtHeaders]
    | response st stText hdrs body bj =>
      by_cases h2 : 200 ≤ st ∧ st ≤ 299 <;>
        simp [run, h1, h2, mkHttpRequest, builtHeaders]

/-- C10, confirmed: a 2xx response whose `Content-Disposition` filename is a
malformed percent-encoding ("%") does not produce a GenerateResult: the
percent-decoding step throws a `URIError`, which the generic transport-error
handler wraps, and the call fails with a Network-classified error. -/
theorem c10_malformed_filename_network_error :
    (run cfg0 "t" req0 (FetchOutcome.response 200 "OK"
        [("Content-Disposition", "attachment; filename=\"%\"")] [] none)).outcome
      = GenerateOutcome.failure
          (NetworkError "Network request failed: URI malformed" (some "URI malformed")) ∧
    (NetworkError "Network request failed: URI malformed" (some "URI malformed")).kind
      = ErrorKind.Network := by
  exact ⟨by decide, rfl⟩
